import Mathlib

/-!
Verification of the functional core of `summarize_pr.py` (PR summarizer):
the risk classifier, the reviewer suggester, the template summary
generator, the two LLM prompt builders, and the orchestration logic.
Python strings are modelled as `String` over `List Char`; Python
truthiness of strings/lists is modelled explicitly where the code
relies on it.
-/

namespace PRSummarizer

/-- One changed file, as assembled in `get_pr_data`. -/
structure FileChange where
  filename : String
  status : String
  additions : Nat
  deletions : Nat
  patch : Option String
deriving DecidableEq

/-- One commit, as assembled in `get_pr_data`. -/
structure CommitInfo where
  sha : String
  message : String
  author : String
deriving DecidableEq

/-- The dictionary returned by `get_pr_data` (the PR snapshot). -/
structure PRData where
  title : String
  body : String
  author : String
  state : String
  created_at : String
  files : List FileChange
  commits : List CommitInfo
  additions : Nat
  deletions : Nat
  changed_files : Nat
  base_branch : String
  head_branch : String
  labels : List String
  reviewers : List String
deriving DecidableEq

/-- Python `s.lower()` (ASCII case folding, character by character). -/
def lowerStr (s : String) : String :=
  ⟨s.data.map Char.toLower⟩

/-- Python substring test `needle in hay`. -/
def strContains (hay needle : String) : Bool :=
  (List.range (hay.data.length + 1)).any (fun i => needle.data.isPrefixOf (hay.data.drop i))

/-- Python `s.endswith(p)`. -/
def strEndsWith (s p : String) : Bool :=
  p.data.isSuffixOf s.data

/-- Python character slicing `s[:n]`. -/
def strTake (s : String) (n : Nat) : String :=
  ⟨s.data.take n⟩

/-- Python `sep.join(xs)`. -/
def joinWith (sep : String) : List String → String
  | [] => ""
  | [x] => x
  | x :: y :: xs => x ++ sep ++ joinWith sep (y :: xs)

/-- The fixed high-risk keyword list of `assess_risk_level`. -/
def high_risk_keywords : List String :=
  ["auth", "authentication", "security", "password", "token", "credential",
   "payment", "billing", "charge", "transaction",
   "database", "migration", "schema", "sql",
   "config", "environment", "secret", "key"]

/-- The fixed medium-risk keyword list of `assess_risk_level`. -/
def medium_risk_keywords : List String :=
  ["api", "endpoint", "route", "controller",
   "deploy", "infrastructure", "docker", "kubernetes",
   "test", "testing", "spec"]

/-- The fixed critical-extension list of `assess_risk_level`. -/
def critical_extensions : List String :=
  [".py", ".js", ".ts", ".java", ".go", ".rb"]

/-- `all_content` in `assess_risk_level`: the lowercased title+body joined by a
space with the space-joined lowercased filenames. -/
def all_content (files : List FileChange) (title body : String) : String :=
  lowerStr (title ++ " " ++ body) ++ " " ++ joinWith " " (files.map (fun f => lowerStr f.filename))

/-- `high_risk_count` in `assess_risk_level`: number of high-risk keywords
present in `all_content`. -/
def high_risk_count (files : List FileChange) (title body : String) : Nat :=
  (high_risk_keywords.filter (fun kw => strContains (all_content files title body) kw)).length

/-- `medium_risk_count` in `assess_risk_level`. -/
def medium_risk_count (files : List FileChange) (title body : String) : Nat :=
  (medium_risk_keywords.filter (fun kw => strContains (all_content files title body) kw)).length

/-- `critical_files` in `assess_risk_level`: files whose name ends in a
critical extension. -/
def critical_files_count (files : List FileChange) : Nat :=
  (files.filter (fun f => critical_extensions.any (fun e => strEndsWith f.filename e))).length

/-- `assess_risk_level(files, title, body)`: returns (risk_level, reasoning). -/
def assess_risk_level (files : List FileChange) (title body : String) : String × String :=
  if high_risk_count files title body > 0 ∨ critical_files_count files > 10 then
    ("High", "Touches " ++ toString (high_risk_count files title body) ++
      " high-risk areas or " ++ toString (critical_files_count files) ++ " critical files")
  else if medium_risk_count files title body > 2 ∨ critical_files_count files > 5 then
    ("Medium", "Moderate changes affecting " ++ toString (medium_risk_count files title body) ++ " areas")
  else
    ("Low", "Limited scope, low-risk changes")

/-- First check of `suggest_reviewers`: some filename contains "auth" or "security". -/
def securityHit (files : List FileChange) : Bool :=
  files.any (fun f => strContains (lowerStr f.filename) "auth" || strContains (lowerStr f.filename) "security")

/-- Second check of `suggest_reviewers`: some filename contains "test". -/
def qaHit (files : List FileChange) : Bool :=
  files.any (fun f => strContains (lowerStr f.filename) "test")

/-- Third check of `suggest_reviewers`: some filename contains "frontend" or "ui". -/
def frontendHit (files : List FileChange) : Bool :=
  files.any (fun f => strContains (lowerStr f.filename) "frontend" || strContains (lowerStr f.filename) "ui")

/-- Fourth check of `suggest_reviewers`: some filename contains "backend" or "api". -/
def backendHit (files : List FileChange) : Bool :=
  files.any (fun f => strContains (lowerStr f.filename) "backend" || strContains (lowerStr f.filename) "api")

/-- `suggest_reviewers(files, ...)`: appends the four team labels in fixed
order, one per successful check, then keeps the first 3. -/
def suggest_reviewers (files : List FileChange) : List String :=
  (((if securityHit files then ["security-team"] else []) ++
    (if qaHit files then ["qa-team"] else []) ++
    (if frontendHit files then ["frontend-team"] else []) ++
    (if backendHit files then ["backend-team"] else [])).take 3)

/-- Stable insertion step for a descending key sort: `x` goes in front of the
first element whose key is `≤` its own. -/
def insertD {α : Type} (key : α → Nat) (x : α) : List α → List α
  | [] => [x]
  | y :: ys => if key y ≤ key x then x :: y :: ys else y :: insertD key x ys

/-- Python `sorted(l, key=key, reverse=True)`: a stable sort, descending by
`key` (any stable sort computes the same list, so insertion sort models
Timsort exactly). -/
def pySortDesc {α : Type} (key : α → Nat) : List α → List α
  | [] => []
  | x :: xs => insertD key x (pySortDesc key xs)

/-- Split a character list on `/` (for `pathlib` component parsing). -/
def splitOnSlash : List Char → List (List Char)
  | [] => [[]]
  | c :: rest =>
    if c = '/' then [] :: splitOnSlash rest
    else
      match splitOnSlash rest with
      | [] => [[c]]
      | g :: gs => (c :: g) :: gs

/-- `PurePosixPath(p).name`: the last path component, with empty and `.`
components dropped. -/
def pathName (p : String) : List Char :=
  ((splitOnSlash p.data).filter (fun s => !(s.isEmpty) && !(s == ['.']))).getLastD []

/-- Index of the last `.` in a character list (`str.rfind`). -/
def lastDotIdx (cs : List Char) : Option Nat :=
  match cs.reverse.findIdx? (fun c => c == '.') with
  | none => none
  | some j => some (cs.length - 1 - j)

/-- `PurePosixPath(p).suffix`: `name[i:]` for the last dot at `0 < i < len-1`,
else the empty string. -/
def pathSuffix (p : String) : String :=
  let name := pathName p
  match lastDotIdx name with
  | none => ""
  | some i => if 0 < i ∧ i < name.length - 1 then ⟨name.drop i⟩ else ""

/-- `Path(file["filename"]).suffix or "no extension"` in `summarize_with_basic`
(Python `or` falls through on the empty string). -/
def extOf (f : FileChange) : String :=
  if pathSuffix f.filename == "" then "no extension" else pathSuffix f.filename

/-- One `file_types[ext] = file_types.get(ext, 0) + 1` step on an
insertion-ordered association list (Python dict semantics). -/
def bumpCount (m : List (String × Nat)) (e : String) : List (String × Nat) :=
  if m.any (fun p => p.1 == e) then m.map (fun p => if p.1 == e then (p.1, p.2 + 1) else p)
  else m ++ [(e, 1)]

/-- The `file_types` dict of `summarize_with_basic`, in insertion order. -/
def file_types (files : List FileChange) : List (String × Nat) :=
  files.foldl (fun m f => bumpCount m (extOf f)) []

/-- The `File Types` field: top 5 extensions by count, descending,
formatted `ext: count` and joined by `, `. -/
def fileTypesField (files : List FileChange) : String :=
  joinWith ", " (((pySortDesc (fun p => p.2) (file_types files)).take 5).map
    (fun p => p.1 ++ ": " ++ toString p.2))

/-- `additions + deletions`, the sort key of the Major Files section. -/
def changesOf (f : FileChange) : Nat :=
  f.additions + f.deletions

/-- `sorted_files` in `summarize_with_basic`: files sorted descending by
change size, stable. -/
def sorted_files (d : PRData) : List FileChange :=
  pySortDesc changesOf d.files

/-- One bullet of the Major Files section. -/
def majorFileLine (f : FileChange) : String :=
  "- `" ++ f.filename ++ "` (" ++ f.status ++ ", +" ++ toString f.additions ++
    "/-" ++ toString f.deletions ++ ")\n"

/-- The Major Files bullets: the first 10 of `sorted_files`. -/
def majorFilesLines (d : PRData) : String :=
  String.join (((sorted_files d).take 10).map majorFileLine)

/-- `summarize_with_basic(pr_data)`: the deterministic Markdown template. -/
def summarize_with_basic (d : PRData) : String :=
  let rl := assess_risk_level d.files d.title d.body
  let suggested := suggest_reviewers d.files
  "# PR Summary: " ++ d.title ++ "\n\n## TL;DR\n" ++ d.title ++ " by @" ++ d.author ++
    " - " ++ toString d.changed_files ++ " files changed (+" ++ toString d.additions ++
    "/-" ++ toString d.deletions ++ " lines)\n\n## Files Changed + Purpose\n- **Total Files**: " ++
    toString d.changed_files ++ "\n- **Lines Changed**: +" ++ toString d.additions ++
    " additions, -" ++ toString d.deletions ++ " deletions\n- **File Types**: " ++
    fileTypesField d.files ++ "\n\n### Major Files:\n" ++
  majorFilesLines d ++
  "\n## Risk Level\n**" ++ rl.1 ++ "** - " ++ rl.2 ++ "\n\n## Suggested Reviewers\n" ++
  (if suggested.isEmpty then "- Review based on file ownership\n"
   else String.join (suggested.map (fun r => "- @" ++ r ++ "\n"))) ++
  "\n## Key Changes\n- " ++ toString d.changed_files ++ " files modified\n- " ++
    toString d.commits.length ++ " commits\n- Base: `" ++ d.base_branch ++
    "` ← Head: `" ++ d.head_branch ++ "`\n" ++
  (if d.labels.isEmpty then "" else "- Labels: " ++ joinWith ", " d.labels ++ "\n") ++
  "\n## Testing Notes\n- Review changes in critical files\n- Test affected functionality\n- Verify no breaking changes\n- Check for proper error handling\n"

/-- The prompt built by `summarize_with_openai` (lines 169-200 of the source). -/
def openai_prompt (d : PRData) : String :=
  let files_summary := joinWith "\n" ((d.files.take 20).map
    (fun f => "- " ++ f.filename ++ " (" ++ f.status ++ ", +" ++ toString f.additions ++
      "/-" ++ toString f.deletions ++ ")"))
  let commits_summary := joinWith "\n" ((d.commits.take 10).map
    (fun c => "- " ++ c.sha ++ ": " ++ c.message))
  "Analyze this GitHub Pull Request and provide a concise summary:\n\nTitle: " ++ d.title ++
  "\nDescription: " ++ strTake d.body 500 ++ "\nAuthor: " ++ d.author ++
  "\nFiles Changed: " ++ toString d.changed_files ++ " files (+" ++ toString d.additions ++
  "/-" ++ toString d.deletions ++ " lines)\n\nFiles:\n" ++ files_summary ++
  "\n\nCommits:\n" ++ commits_summary ++
  "\n\nProvide a structured summary with:\n1. TL;DR (one sentence)\n2. Files Changed + Purpose (brief description of what each major file does)\n3. Risk Level (Low/Medium/High) with reasoning\n4. Suggested Reviewers (based on file ownership/patterns)\n5. Key Changes (3-5 bullet points)\n6. Testing Notes (what should be tested)\n\nFormat as Markdown."

/-- The prompt built by `summarize_with_ollama` (lines 222-253 of the source). -/
def ollama_prompt (d : PRData) : String :=
  let files_summary := joinWith "\n" ((d.files.take 20).map
    (fun f => "- " ++ f.filename ++ " (" ++ f.status ++ ", +" ++ toString f.additions ++
      "/-" ++ toString f.deletions ++ ")"))
  let commits_summary := joinWith "\n" ((d.commits.take 10).map
    (fun c => "- " ++ c.sha ++ ": " ++ c.message))
  "Analyze this GitHub Pull Request and provide a concise summary:\n\nTitle: " ++ d.title ++
  "\nDescription: " ++ strTake d.body 500 ++ "\nAuthor: " ++ d.author ++
  "\nFiles Changed: " ++ toString d.changed_files ++ " files (+" ++ toString d.additions ++
  "/-" ++ toString d.deletions ++ " lines)\n\nFiles:\n" ++ files_summary ++
  "\n\nCommits:\n" ++ commits_summary ++
  "\n\nProvide a structured summary with:\n1. TL;DR (one sentence)\n2. Files Changed + Purpose (brief description of what each major file does)\n3. Risk Level (Low/Medium/High) with reasoning\n4. Suggested Reviewers (based on file ownership/patterns)\n5. Key Changes (3-5 bullet points)\n6. Testing Notes (what should be tested)\n\nFormat as Markdown."

/-- The patch field stored by `get_pr_data`:
`file.patch[:500] if file.patch else None` (a falsy patch, absent or empty,
stores `None`). -/
def storePatch : Option String → Option String
  | none => none
  | some p => if p == "" then none else some (strTake p 500)

/-- Python truthiness of an optional string (`None` and `""` are falsy). -/
def truthyStr : Option String → Bool
  | none => false
  | some s => !(s == "")

/-- Python `a or b` on optional strings. -/
def orElseTruthy (a b : Option String) : Option String :=
  if truthyStr a then a else b

/-- The error kinds `summarize_pr` can surface. -/
inductive PyError where
  | valueError (msg : String)
  | apiError (msg : String)
deriving DecidableEq

/-- `summarize_pr(repo, pr_number, provider, github_token, **kwargs)`:
resolves the token (argument first, then the `GITHUB_TOKEN` environment
value), raising `ValueError` when neither is truthy; then fetches (the one
network call of this stage, counted in the second component) and routes on
`provider`, with anything other than "openai"/"ollama" going to
`summarize_with_basic`. The fetch and the two LLM generators are oracles for
the network. -/
def summarize_pr (provider : String) (github_token_arg env_github_token : Option String)
    (fetch : String → Except PyError PRData)
    (openaiGen : PRData → Except PyError String)
    (ollamaGen : PRData → Except PyError String) :
    Except PyError String × Nat :=
  let github_token := orElseTruthy github_token_arg env_github_token
  if truthyStr github_token = false then
    (Except.error (PyError.valueError "GITHUB_TOKEN not found in environment or provided"), 0)
  else
    match fetch (github_token.getD "") with
    | Except.error e => (Except.error e, 1)
    | Except.ok pr_data =>
      if provider == "openai" then (openaiGen pr_data, 1)
      else if provider == "ollama" then (ollamaGen pr_data, 1)
      else (Except.ok (summarize_with_basic pr_data), 1)

/-- A sample snapshot used to instantiate universally quantified results. -/
def samplePR : PRData :=
  { title := "Add feature", body := "body", author := "alice", state := "open",
    created_at := "2024-01-01",
    files := [⟨"src/main.py", "modified", 10, 2, some "p"⟩],
    commits := [⟨"abc1234", "Add feature", "alice"⟩],
    additions := 10, deletions := 2, changed_files := 1,
    base_branch := "main", head_branch := "feat", labels := [], reviewers := [] }

/-- A patch of 501 characters, exercising the truncation branch. -/
def longPatch : String :=
  ⟨List.replicate 501 'a'⟩

theorem insertD_perm {α : Type} (key : α → Nat) (x : α) :
    ∀ l : List α, List.Perm (insertD key x l) (x :: l)
  | [] => List.Perm.refl _
  | y :: ys => by
    unfold insertD
    by_cases h : key y ≤ key x
    · rw [if_pos h]
    · rw [if_neg h]
      exact (List.Perm.cons y (insertD_perm key x ys)).trans (List.Perm.swap x y ys)

theorem pySortDesc_perm {α : Type} (key : α → Nat) :
    ∀ l : List α, List.Perm (pySortDesc key l) l
  | [] => List.Perm.refl _
  | x :: xs => (insertD_perm key x (pySortDesc key xs)).trans
      (List.Perm.cons x (pySortDesc_perm key xs))

theorem insertD_pairwise {α : Type} (key : α → Nat) (x : α) :
    ∀ l : List α, l.Pairwise (fun a b => key b ≤ key a) →
      (insertD key x l).Pairwise (fun a b => key b ≤ key a)
  | [], _ => by simp [insertD]
  | y :: ys, h => by
    obtain ⟨hy, hys⟩ := List.pairwise_cons.mp h
    unfold insertD
    by_cases hxy : key y ≤ key x
    · rw [if_pos hxy]
      refine List.pairwise_cons.mpr ⟨?_, h⟩
      intro b hb
      rcases List.mem_cons.mp hb with hb | hb
      · subst hb; exact hxy
      · exact le_trans (hy b hb) hxy
    · rw [if_neg hxy]
      refine List.pairwise_cons.mpr ⟨?_, insertD_pairwise key x ys hys⟩
      intro b hb
      rcases List.mem_cons.mp ((insertD_perm key x ys).mem_iff.mp hb) with hb | hb
      · subst hb; omega
      · exact hy b hb

theorem pySortDesc_pairwise {α : Type} (key : α → Nat) :
    ∀ l : List α, (pySortDesc key l).Pairwise (fun a b => key b ≤ key a)
  | [] => List.Pairwise.nil
  | x :: xs => insertD_pairwise key x (pySortDesc key xs) (pySortDesc_pairwise key xs)

theorem insertD_filter_pos {α : Type} (key : α → Nat) (x : α) (k : Nat) (hx : key x = k) :
    ∀ l : List α, (insertD key x l).filter (fun a => key a == k) =
      x :: l.filter (fun a => key a == k)
  | [] => by simp [insertD, hx]
  | y :: ys => by
    unfold insertD
    by_cases hxy : key y ≤ key x
    · rw [if_pos hxy]
      simp [List.filter_cons, hx]
    · rw [if_neg hxy]
      have hyk : (key y == k) = false := beq_eq_false_iff_ne.mpr (by omega)
      simp [List.filter_cons, hyk, insertD_filter_pos key x k hx ys]

theorem insertD_filter_neg {α : Type} (key : α → Nat) (x : α) (k : Nat) (hx : key x ≠ k) :
    ∀ l : List α, (insertD key x l).filter (fun a => key a == k) =
      l.filter (fun a => key a == k)
  | [] => by simp [insertD, beq_eq_false_iff_ne.mpr hx]
  | y :: ys => by
    unfold insertD
    by_cases hxy : key y ≤ key x
    · rw [if_pos hxy]
      simp [List.filter_cons, beq_eq_false_iff_ne.mpr hx]
    · rw [if_neg hxy]
      simp [List.filter_cons, insertD_filter_neg key x k hx ys]

theorem pySortDesc_filter {α : Type} (key : α → Nat) (k : Nat) :
    ∀ l : List α, (pySortDesc key l).filter (fun a => key a == k) =
      l.filter (fun a => key a == k)
  | [] => rfl
  | x :: xs => by
    unfold pySortDesc
    by_cases hx : key x = k
    · rw [insertD_filter_pos key x k hx (pySortDesc key xs), pySortDesc_filter key k xs,
        List.filter_cons]
      simp [hx]
    · rw [insertD_filter_neg key x k hx (pySortDesc key xs), pySortDesc_filter key k xs,
        List.filter_cons]
      simp [beq_eq_false_iff_ne.mpr hx]

/-- C1: whenever at least one high-risk keyword occurs as a substring of the
lowercased, space-joined concatenation of title, body and all filenames
(`all_content`, as the code builds it), `assess_risk_level` returns the
level High, for every file list, title and body. -/
theorem claim1_high_risk_keyword_forces_high (files : List FileChange) (title body : String)
    (h : ∃ kw, kw ∈ high_risk_keywords ∧ strContains (all_content files title body) kw = true) :
    (assess_risk_level files title body).1 = "High" := by
  obtain ⟨kw, hmem, hc⟩ := h
  have hpos : high_risk_count files title body > 0 := by
    have hkw : kw ∈ high_risk_keywords.filter
        (fun kw => strContains (all_content files title body) kw) :=
      List.mem_filter.mpr ⟨hmem, hc⟩
    exact List.length_pos.mpr (List.ne_nil_of_mem hkw)
  unfold assess_risk_level
  rw [if_pos (Or.inl hpos)]

/-- C1 witness: a PR titled "Fix login auth bug" is High risk. -/
theorem claim1_witness : (assess_risk_level [] "Fix login auth bug" "").1 = "High" :=
  claim1_high_risk_keyword_forces_high [] "Fix login auth bug" ""
    ⟨"auth", by decide, by decide⟩

/-- C2: when no high-risk and no medium-risk keyword occurs in `all_content`
and at most 5 files have a critically-extended name, `assess_risk_level`
returns Low. -/
theorem claim2_clean_pr_is_low (files : List FileChange) (title body : String)
    (h1 : ∀ kw ∈ high_risk_keywords, strContains (all_content files title body) kw = false)
    (h2 : ∀ kw ∈ medium_risk_keywords, strContains (all_content files title body) kw = false)
    (h3 : critical_files_count files ≤ 5) :
    (assess_risk_level files title body).1 = "Low" := by
  have e1 : high_risk_count files title body = 0 := by
    unfold high_risk_count
    rw [List.filter_eq_nil_iff.mpr (fun kw hkw => by simp [h1 kw hkw])]
    rfl
  have e2 : medium_risk_count files title body = 0 := by
    unfold medium_risk_count
    rw [List.filter_eq_nil_iff.mpr (fun kw hkw => by simp [h2 kw hkw])]
    rfl
  have c1 : ¬(high_risk_count files title body > 0 ∨ critical_files_count files > 10) := by
    omega
  have c2 : ¬(medium_risk_count files title body > 2 ∨ critical_files_count files > 5) := by
    omega
  unfold assess_risk_level
  rw [if_neg c1, if_neg c2]

/-- C2 witness: a docs-only PR is Low risk. -/
theorem claim2_witness : (assess_risk_level [] "Update readme" "").1 = "Low" :=
  claim2_clean_pr_is_low [] "Update readme" "" (by decide) (by decide) (by decide)

/-- C3: `suggest_reviewers` returns at most 3 labels, never repeats a label,
keeps the fixed order security-team, qa-team, frontend-team, backend-team,
and includes each label exactly when its filename check fires — except that
backend-team is truncated away when the three earlier checks all fire. -/
theorem claim3_suggest_reviewers_shape (files : List FileChange) :
    (suggest_reviewers files).length ≤ 3 ∧
    (suggest_reviewers files).Nodup ∧
    (suggest_reviewers files).Sublist
      ["security-team", "qa-team", "frontend-team", "backend-team"] ∧
    ("security-team" ∈ suggest_reviewers files ↔ securityHit files = true) ∧
    ("qa-team" ∈ suggest_reviewers files ↔ qaHit files = true) ∧
    ("frontend-team" ∈ suggest_reviewers files ↔ frontendHit files = true) ∧
    ("backend-team" ∈ suggest_reviewers files ↔
      backendHit files = true ∧
        ¬(securityHit files = true ∧ qaHit files = true ∧ frontendHit files = true)) := by
  unfold suggest_reviewers
  cases hs : securityHit files <;> cases hq : qaHit files <;>
    cases hf : frontendHit files <;> cases hb : backendHit files <;>
      refine ⟨by decide, by decide, by decide, by simp, by simp, by simp, by simp⟩

/-- C4: the template generator is deterministic — equal snapshots produce
byte-identical summaries. -/
theorem claim4_basic_deterministic (d1 d2 : PRData) (h : d1 = d2) :
    summarize_with_basic d1 = summarize_with_basic d2 :=
  congrArg summarize_with_basic h

/-- C4 witness at a concrete snapshot. -/
theorem claim4_witness : summarize_with_basic samplePR = summarize_with_basic samplePR :=
  claim4_basic_deterministic samplePR samplePR rfl

/-- C5: the hosted-LLM generator and the local-LLM generator build exactly the
same prompt string from the same snapshot. -/
theorem claim5_prompts_identical (d : PRData) : openai_prompt d = ollama_prompt d :=
  rfl

/-- C6: with no truthy explicit credential and no truthy environment value,
`summarize_pr` fails with the missing-credential `ValueError` and performs
zero network calls; and a truthy explicit credential takes precedence over
the environment value in the resolution step. -/
theorem claim6_credential_resolution (provider : String) (tok env : Option String)
    (fetch : String → Except PyError PRData)
    (og ol : PRData → Except PyError String) :
    (truthyStr tok = false → truthyStr env = false →
      summarize_pr provider tok env fetch og ol =
        (Except.error (PyError.valueError "GITHUB_TOKEN not found in environment or provided"), 0)) ∧
    (truthyStr tok = true → orElseTruthy tok env = tok) := by
  constructor
  · intro h1 h2
    have hres : truthyStr (orElseTruthy tok env) = false := by
      unfold orElseTruthy
      rw [h1]
      simpa using h2
    simp [summarize_pr, hres]
  · intro h
    unfold orElseTruthy
    rw [h]
    simp

/-- C6 witness: a concrete missing-credential run makes no network call, and
an explicit credential wins over an environment one. -/
theorem claim6_witness :
    summarize_pr "basic" none none (fun _ => Except.error (PyError.apiError "net"))
        (fun _ => Except.error (PyError.apiError "llm"))
        (fun _ => Except.error (PyError.apiError "llm")) =
      (Except.error (PyError.valueError "GITHUB_TOKEN not found in environment or provided"), 0) ∧
    orElseTruthy (some "tok") (some "envtok") = some "tok" :=
  ⟨(claim6_credential_resolution "basic" none none
      (fun _ => Except.error (PyError.apiError "net"))
      (fun _ => Except.error (PyError.apiError "llm"))
      (fun _ => Except.error (PyError.apiError "llm"))).1 rfl rfl,
   (claim6_credential_resolution "basic" (some "tok") (some "envtok")
      (fun _ => Except.error (PyError.apiError "net"))
      (fun _ => Except.error (PyError.apiError "llm"))
      (fun _ => Except.error (PyError.apiError "llm"))).2 (by decide)⟩

/-- C7 counterexample: an upstream empty-string patch is a patch of length
0 ≤ 500, yet it is stored as an absent patch rather than untouched. -/
theorem claim7_counterexample :
    ("" : String).data.length ≤ 500 ∧
    storePatch (some "") = none ∧
    storePatch (some "") ≠ some "" := by
  decide

/-- C7 (amended): a stored patch longer than 500 characters equals the first
500 characters of the upstream patch; shorter non-empty patches are stored
untouched; a file with no patch — or an empty-string patch, which Python
truthiness treats the same — stores an absent patch. -/
theorem claim7_patch_truncation (p : String) :
    (p.data.length > 500 →
      storePatch (some p) = some (strTake p 500) ∧ (strTake p 500).data.length = 500) ∧
    (p ≠ "" → p.data.length ≤ 500 → storePatch (some p) = some p) ∧
    storePatch none = none ∧
    storePatch (some "") = none := by
  refine ⟨?_, ?_, rfl, rfl⟩
  · intro hlen
    have hne : (p == "") = false := by
      apply beq_eq_false_iff_ne.mpr
      intro he
      subst he
      simp at hlen
    refine ⟨by simp [storePatch, hne], ?_⟩
    show (p.data.take 500).length = 500
    rw [List.length_take]
    omega
  · intro hne' hlen
    have hne : (p == "") = false := beq_eq_false_iff_ne.mpr hne'
    have htake : strTake p 500 = p := by
      unfold strTake
      rw [List.take_of_length_le hlen]
    simp [storePatch, hne, htake]

/-- C7 witness: a 501-character patch is truncated to exactly 500 characters,
and a short non-empty patch is stored untouched. -/
theorem claim7_witness :
    (storePatch (some longPatch) = some (strTake longPatch 500) ∧
      (strTake longPatch 500).data.length = 500) ∧
    storePatch (some "x") = some "x" :=
  ⟨(claim7_patch_truncation longPatch).1
      (by show (List.replicate 501 'a').length > 500; rw [List.length_replicate]; omega),
   (claim7_patch_truncation "x").2.1 (by decide) (by decide)⟩

/-- C8: the Major Files section lists the first 10 files of a stable
descending sort by additions+deletions: `sorted_files` is a permutation of
the input files, pairwise descending in `changesOf`, ties keep original fetch
order (the subsequence at each key value is unchanged), and the section body
is its first 10 entries formatted. -/
theorem claim8_major_files_sorted (d : PRData) :
    List.Perm (sorted_files d) d.files ∧
    (sorted_files d).Pairwise (fun a b => changesOf b ≤ changesOf a) ∧
    (∀ k : Nat, (sorted_files d).filter (fun f => changesOf f == k) =
      d.files.filter (fun f => changesOf f == k)) ∧
    majorFilesLines d = String.join (((sorted_files d).take 10).map majorFileLine) :=
  ⟨pySortDesc_perm changesOf d.files, pySortDesc_pairwise changesOf d.files,
   fun k => pySortDesc_filter changesOf k d.files, rfl⟩

/-- C9 counterexample: on the Low branch the returned reasoning is the fixed
sentence "Limited scope, low-risk changes", which does not name the counts of
the branch (both relevant counts are 0 here, and "0" does not occur in it). -/
theorem claim9_counterexample :
    (assess_risk_level [] "Update docs" "").1 = "Low" ∧
    medium_risk_count [] "Update docs" "" = 0 ∧
    critical_files_count [] = 0 ∧
    strContains (assess_risk_level [] "Update docs" "").2 "0" = false := by
  decide

/-- C9 (amended): the reasoning is a fixed-template sentence naming the
triggering counts on the High branch (high-risk keyword count and critical
file count) and on the Medium branch (medium-risk keyword count); the Low
branch returns the fixed sentence "Limited scope, low-risk changes", which
names no counts. -/
theorem claim9_reasoning_templates (files : List FileChange) (title body : String) :
    ((assess_risk_level files title body).1 = "High" →
      (assess_risk_level files title body).2 =
        "Touches " ++ toString (high_risk_count files title body) ++
          " high-risk areas or " ++ toString (critical_files_count files) ++
          " critical files") ∧
    ((assess_risk_level files title body).1 = "Medium" →
      (assess_risk_level files title body).2 =
        "Moderate changes affecting " ++ toString (medium_risk_count files title body) ++
          " areas") ∧
    ((assess_risk_level files title body).1 = "Low" →
      (assess_risk_level files title body).2 = "Limited scope, low-risk changes") := by
  unfold assess_risk_level
  split_ifs <;>
    refine ⟨fun h => ?_, fun h => ?_, fun h => ?_⟩ <;>
      first
        | rfl
        | simp at h

/-- C9 witness: the High-branch reasoning template at a concrete input. -/
theorem claim9_witness :
    (assess_risk_level [] "Fix payment flow" "").2 =
      "Touches " ++ toString (high_risk_count [] "Fix payment flow" "") ++
        " high-risk areas or " ++ toString (critical_files_count []) ++ " critical files" :=
  (claim9_reasoning_templates [] "Fix payment flow" "").1 (by decide)

/-- C10: any provider string other than "openai" and "ollama" routes to the
template generator: with a resolvable credential and a successful fetch,
`summarize_pr` returns the output of `summarize_with_basic` on the fetched
snapshot, raising no validation error for the unrecognized name. -/
theorem claim10_unknown_provider_uses_basic (provider : String) (tok env : Option String)
    (fetch : String → Except PyError PRData)
    (og ol : PRData → Except PyError String) (d : PRData)
    (hp1 : provider ≠ "openai") (hp2 : provider ≠ "ollama")
    (ht : truthyStr (orElseTruthy tok env) = true)
    (hf : fetch ((orElseTruthy tok env).getD "") = Except.ok d) :
    summarize_pr provider tok env fetch og ol =
      (Except.ok (summarize_with_basic d), 1) := by
  simp [summarize_pr, ht, hf, beq_eq_false_iff_ne.mpr hp1, beq_eq_false_iff_ne.mpr hp2]

/-- C10 witness: provider "gpt4" (outside the documented set) routes to the
template generator on a concrete run. -/
theorem claim10_witness :
    summarize_pr "gpt4" (some "tok") none (fun _ => Except.ok samplePR)
        (fun _ => Except.error (PyError.apiError "llm"))
        (fun _ => Except.error (PyError.apiError "llm")) =
      (Except.ok (summarize_with_basic samplePR), 1) :=
  claim10_unknown_provider_uses_basic "gpt4" (some "tok") none
    (fun _ => Except.ok samplePR)
    (fun _ => Except.error (PyError.apiError "llm"))
    (fun _ => Except.error (PyError.apiError "llm")) samplePR
    (by decide) (by decide) (by decide) rfl

end PRSummarizer
